import Mathlib

/-!
Verification development for the trading-watchlist repository.

Shallow embedding conventions:
* Python floats are modelled as rationals (the code performs only field
  arithmetic, comparisons, min/max and truncating conversions on them).
* New-York-local timestamps are modelled as pairs of a local calendar day
  index and a minute-of-day; the timezone conversion performed by the
  external datetime library is treated as already applied to the inputs.
* Optional values are modelled with Option; database handles and network
  collaborators are replaced by explicit values passed in (an association
  list for the baseline-curve table, a lookup function for the float cache,
  an oracle for the per-symbol RVOL outcome of the external fetch).
-/

namespace Watchlist

/-! ### Python string primitives

The source manipulates short ASCII configuration strings with strip,
upper, lower, split and int. These are modelled over the character list of
a String (case mapping is the ASCII one of Char.toUpper and Char.toLower,
which matches Python on the configuration alphabet in use). -/

/-- Python str.strip(): drop leading and trailing whitespace. -/
def py_strip (s : String) : String :=
  ⟨((s.data.dropWhile Char.isWhitespace).reverse.dropWhile Char.isWhitespace).reverse⟩

/-- Python str.upper(). -/
def py_upper (s : String) : String := ⟨s.data.map Char.toUpper⟩

/-- Python str.lower(). -/
def py_lower (s : String) : String := ⟨s.data.map Char.toLower⟩

/-- Python str.split() with no separator: split on whitespace runs,
discarding empty pieces. -/
def py_split_ws (s : String) : List String :=
  ((s.data.splitOnP Char.isWhitespace).filter (fun l => l ≠ [])).map (fun l => (⟨l⟩ : String))

/-- Decimal value of a digit run. -/
def digits_to_nat (cs : List Char) : ℕ :=
  cs.foldl (fun acc c => acc * 10 + (c.toNat - 48)) 0

/-- Python int() on an unsigned digit string: none when empty or not all
digits. -/
def py_parse_nat (s : String) : Option ℕ :=
  if s.data ≠ [] ∧ s.data.all Char.isDigit then some (digits_to_nat s.data) else none

/-- Python int() on an already-stripped string: optional sign followed by
digits, none when unparsable. -/
def pyint_of_string (s : String) : Option ℤ :=
  match s.data with
  | [] => none
  | c :: rest =>
    if c = '+' then (py_parse_nat ⟨rest⟩).map (fun n => (n : ℤ))
    else if c = '-' then (py_parse_nat ⟨rest⟩).map (fun n => -(n : ℤ))
    else (py_parse_nat s).map (fun n => (n : ℤ))

/-! ### Statistical helpers, from src/watchlist/rvol.py -/

/-- Embeds rvol.py median: sort, take middle (average of two middles on even
length); None on the empty list. -/
def median (vals : List ℚ) : Option ℚ :=
  if vals = [] then none
  else
    let ordered := List.insertionSort (· ≤ ·) vals
    let mid := ordered.length / 2
    if ordered.length % 2 = 1 then some (ordered.getD mid 0)
    else some ((ordered.getD (mid - 1) 0 + ordered.getD mid 0) / 2)

/-- Embeds rvol.py trimmed_mean: clamp the trim fraction to [0, 0.49],
sort, drop `int(len * pct)` from both ends; if that would remove the whole
sample fall back to the full mean. Python slice `ordered[trim : len - trim]`
is `(drop trim).take (len - trim - trim)`. -/
def trimmed_mean (vals : List ℚ) (trim_pct : ℚ) : Option ℚ :=
  if vals = [] then none
  else
    let pct := max 0 (min trim_pct (49 / 100))
    let ordered := List.insertionSort (· ≤ ·) vals
    let trim := (⌊(ordered.length : ℚ) * pct⌋).toNat
    if ordered.length ≤ trim * 2 then some (ordered.sum / ordered.length)
    else
      let trimmed := (ordered.drop trim).take (ordered.length - trim - trim)
      if trimmed = [] then none
      else some (trimmed.sum / trimmed.length)

/-- Embeds rvol.py select_method: normalize the method name (empty falls back
to "median"), then dispatch to mean, trimmed mean or median. -/
def select_method (method : String) (vals : List ℚ) (trim_pct : ℚ) : Option ℚ :=
  let method_clean := py_lower (py_strip (if method = "" then "median" else method))
  if method_clean = "mean" then
    (if vals = [] then none else some (vals.sum / vals.length))
  else if method_clean = "trimmed_mean" then trimmed_mean vals trim_pct
  else median vals

/-! ### C1 theorems -/

theorem trimmed_mean_at_clamp_counterexample :
    trimmed_mean [0, 0, 3] (49 / 100) = some 0 ∧
      ([0, 0, 3] : List ℚ).sum / (([0, 0, 3] : List ℚ).length : ℚ) = 1 ∧
      (0 : ℚ) ≠ 1 := by
  refine ⟨?_, by norm_num, by norm_num⟩
  norm_num [trimmed_mean, List.insertionSort, List.orderedInsert]
  intro h
  simp at h

/-- Claim C1 (amended): with trim fraction 0 the trimmed mean is the
arithmetic mean of the full list; for every trim fraction p at least 0.49
the fraction is clamped to 0.49, so the result agrees with the trimmed mean
at 0.49 (which in general differs from the full mean). -/
theorem trimmed_mean_zero_and_clamp (vals : List ℚ) (p : ℚ)
    (hv : vals ≠ []) (hp : (49 : ℚ) / 100 ≤ p) :
    trimmed_mean vals 0 = some (vals.sum / vals.length) ∧
      trimmed_mean vals p = trimmed_mean vals (49 / 100) := by
  constructor
  · have hperm := List.perm_insertionSort (α := ℚ) (· ≤ ·) vals
    have hlen : (List.insertionSort (· ≤ ·) vals).length = vals.length :=
      hperm.length_eq
    have hsum : (List.insertionSort (· ≤ ·) vals).sum = vals.sum :=
      hperm.sum_eq
    have hne : List.insertionSort (· ≤ ·) vals ≠ [] := by
      intro h
      apply hv
      have h0 : vals.length = 0 := by rw [← hlen, h]; rfl
      exact List.length_eq_zero.mp h0
    simp only [trimmed_mean, if_neg hv]
    norm_num
    rw [if_neg hv, if_neg (by simp [hv, hne]), List.take_of_length_le (le_of_eq hlen),
      hsum]
  · simp only [trimmed_mean]
    rw [min_eq_right hp, min_self]

theorem trimmed_mean_zero_and_clamp_witness :
    trimmed_mean [1, 2] 0 = some (([1, 2] : List ℚ).sum / (([1, 2] : List ℚ).length : ℚ)) ∧
      trimmed_mean [1, 2] (1 / 2) = trimmed_mean [1, 2] (49 / 100) :=
  trimmed_mean_zero_and_clamp [1, 2] (1 / 2) (by decide) (by norm_num)

/-! ### Sessions, time buckets and day volume series, from src/watchlist/rvol.py

A New-York-local timestamp is a local calendar day index plus a
minute-of-day; clock times are minutes after local midnight (09:30 is 570,
16:00 is 960, 04:00 is 240). Bars carry timestamps already converted to
New-York local time (the source converts from UTC with an external
timezone library before any session logic runs). -/

structure NYTime where
  day : ℤ
  minute : ℕ
deriving DecidableEq, Repr

def RTH_OPEN : ℕ := 570

def RTH_CLOSE : ℕ := 960

def PRE_OPEN : ℕ := 240

/-- Python `(session or "RTH").strip().upper()`. -/
def session_clean (session : String) : String :=
  py_upper (py_strip (if session = "" then "RTH" else session))

/-- Embeds rvol.py _session_times. -/
def session_times (session : String) : ℕ × ℕ :=
  if session_clean session = "RTH+PRE" then (PRE_OPEN, RTH_CLOSE)
  else (RTH_OPEN, RTH_CLOSE)

/-- Embeds rvol.py _session_minutes. -/
def session_minutes (session : String) : ℕ :=
  (session_times session).2 - (session_times session).1

/-- Embeds rvol.py _parse_bar_minutes: lowercase and strip; with two or more
whitespace-separated parts parse the first as an integer (failure gives 1);
otherwise take the leading run of digits; clamp to at least 1. -/
def parse_bar_minutes (bar_size : String) : ℕ :=
  let s := py_lower (py_strip bar_size)
  if s = "" then 1
  else
    let parts := py_split_ws s
    if 2 ≤ parts.length then
      match pyint_of_string (parts.headD "") with
      | some mins => (max 1 mins).toNat
      | none => 1
    else
      let digits := s.data.takeWhile Char.isDigit
      if digits = [] then 1 else max 1 (digits_to_nat digits)

/-- Embeds rvol.py session_bar_count. -/
def session_bar_count (session bar_size : String) : ℕ :=
  max 1 (session_minutes session / parse_bar_minutes bar_size)

/-- Embeds rvol.py minute_index_in_session: none when now is outside the
half-open session window [start, end). -/
def minute_index_in_session (now_ny : NYTime) (session : String) : Option ℕ :=
  let se := session_times session
  if now_ny.minute < se.1 ∨ se.2 ≤ now_ny.minute then none
  else some (now_ny.minute - se.1)

structure DayVolumeSeries where
  date : ℤ
  vol_1m : List ℤ
  cumvol_1m : List ℤ
  missing_bars : ℕ
deriving DecidableEq, Repr

/-- Running cumulative sums, as the accumulation loop in
get_intraday_1m_volume. -/
def cumulative_sums : ℤ → List ℤ → List ℤ
  | _, [] => []
  | running, v :: rest => (running + v) :: cumulative_sums (running + v) rest

/-- Embeds rvol.py get_intraday_1m_volume: bucket one day of bars into
session-aligned slots of bar_size minutes, recording per-slot volume, a
per-slot bar count, and whether any bar fell inside the window; none when
no bar did. -/
def get_intraday_1m_volume (bars_ny : List (NYTime × ℤ)) (date_ny : ℤ)
    (session bar_size : String) : Option DayVolumeSeries :=
  let bar_minutes := parse_bar_minutes bar_size
  if bar_minutes = 0 then none
  else
    let se := session_times session
    let expected_bars := max 1 (session_minutes session / bar_minutes)
    let step := fun (acc : List ℤ × List ℕ × Bool) (bar : NYTime × ℤ) =>
      if bar.1.day ≠ date_ny then acc
      else if bar.1.minute < se.1 ∨ se.2 ≤ bar.1.minute then acc
      else
        let mins_since := bar.1.minute - se.1
        let idx := mins_since / bar_minutes
        if idx < expected_bars then
          (acc.1.set idx (acc.1.getD idx 0 + bar.2),
           acc.2.1.set idx (acc.2.1.getD idx 0 + 1), true)
        else (acc.1, acc.2.1, true)
    let res := bars_ny.foldl step
      (List.replicate expected_bars 0, List.replicate expected_bars 0, false)
    if res.2.2 = false then none
    else
      some { date := date_ny
             vol_1m := res.1
             cumvol_1m := cumulative_sums 0 res.1
             missing_bars := (res.2.1.filter (fun c => c = 0)).length }

/-! ### Baseline curves, from src/watchlist/rvol.py -/

structure BaselineCurve where
  symbol : String
  session : String
  bar_size : String
  lookback_days : ℕ
  method : String
  trim_pct : ℚ
  updated_at : NYTime
  baseline_cumvol : List ℚ
  history_days_used : ℕ
  notes : Option String
deriving DecidableEq, Repr

/-- Python `(method or "median").strip().lower()`. -/
def method_clean_name (method : String) : String :=
  py_lower (py_strip (if method = "" then "median" else method))

/-- Embeds rvol.py build_baseline_curve_from_bars. The set of prior trading
days is resolved in the source through an external exchange-calendar
library (previous_trading_days); it enters here as the prior_days argument.
The updated_at timestamp is the build instant (datetime.now in the source),
passed as build_now. -/
def build_baseline_curve_from_bars (symbol : String) (bars_ny : List (NYTime × ℤ))
    (prior_days : List ℤ) (build_now : NYTime) (session bar_size : String)
    (lookback_days : ℕ) (method : String) (trim_pct : ℚ)
    (min_history_days : ℕ) (min_baseline : ℤ) : BaselineCurve :=
  let series_list := prior_days.filterMap
    (fun d => get_intraday_1m_volume bars_ny d session bar_size)
  let missing_total := (series_list.map (fun s => s.missing_bars)).sum
  let history_days_used := series_list.length
  let expected_bars := max 1 (session_minutes session / parse_bar_minutes bar_size)
  let baseline_cumvol := (List.range expected_bars).map (fun t =>
    let samples := series_list.filterMap
      (fun s => if t < s.cumvol_1m.length then some ((s.cumvol_1m.getD t 0 : ℤ) : ℚ) else none)
    let base := (select_method method samples trim_pct).getD 0
    if base < (min_baseline : ℚ) then (min_baseline : ℚ) else base)
  let notes_parts :=
    (if history_days_used < max 1 min_history_days then ["insufficient_history"] else []) ++
    (if 0 < missing_total then ["missing_bars=" ++ toString missing_total] else []) ++
    (if history_days_used = 0 then ["no_history"] else [])
  { symbol := symbol
    session := session_clean session
    bar_size := bar_size
    lookback_days := lookback_days
    method := method_clean_name method
    trim_pct := trim_pct
    updated_at := build_now
    baseline_cumvol := baseline_cumvol
    history_days_used := history_days_used
    notes := if notes_parts = [] then none else some (String.intercalate ";" notes_parts) }

/-! ### C6 theorems -/

/-- Claim C6: every built curve has exactly session_bar_count(session,
bar_size) baseline entries, independent of the input bars and days, and
every entry is at least the min_baseline floor. -/
theorem build_baseline_curve_length_and_floor (symbol : String)
    (bars_ny : List (NYTime × ℤ)) (prior_days : List ℤ) (build_now : NYTime)
    (session bar_size : String) (lookback_days : ℕ) (method : String)
    (trim_pct : ℚ) (min_history_days : ℕ) (min_baseline : ℤ) :
    (build_baseline_curve_from_bars symbol bars_ny prior_days build_now session
        bar_size lookback_days method trim_pct min_history_days
        min_baseline).baseline_cumvol.length = session_bar_count session bar_size ∧
      ∀ x ∈ (build_baseline_curve_from_bars symbol bars_ny prior_days build_now
          session bar_size lookback_days method trim_pct min_history_days
          min_baseline).baseline_cumvol, (min_baseline : ℚ) ≤ x := by
  constructor
  · simp [build_baseline_curve_from_bars, session_bar_count]
  · intro x hx
    simp only [build_baseline_curve_from_bars, List.mem_map, List.mem_range] at hx
    obtain ⟨t, -, rfl⟩ := hx
    split
    · exact le_rfl
    · exact not_lt.mp (by assumption)

theorem build_baseline_curve_length_and_floor_witness :
    (build_baseline_curve_from_bars "X" [] [] ⟨0, 600⟩ "RTH" "390m" 1 "mean" 0 1
        7).baseline_cumvol.length = session_bar_count "RTH" "390m" ∧
      (7 : ℚ) ≤ (7 : ℚ) := by
  refine ⟨(build_baseline_curve_length_and_floor "X" [] [] ⟨0, 600⟩ "RTH" "390m"
    1 "mean" 0 1 7).1, ?_⟩
  exact (build_baseline_curve_length_and_floor "X" [] [] ⟨0, 600⟩ "RTH" "390m"
    1 "mean" 0 1 7).2 7 (by decide)

/-! ### Live ratio computation, from src/watchlist/rvol.py -/

structure RvolTimeOfDayResult where
  symbol : String
  minute_index : Option ℕ
  cumvol_today : Option ℤ
  baseline_cumvol : Option ℚ
  rvol_raw : Option ℚ
  rvol : Option ℚ
  history_days_used : ℕ
  baseline_low : Bool
  insufficient_history : Bool
  session_mismatch : Bool
  cap_applied : Bool
deriving DecidableEq, Repr

/-- Embeds the ratio block of compute_rvol_time_of_day (rvol.py lines 369
to 377): divide only when the baseline value is truthy and positive and the
cumulative volume is known; apply the cap when it is set, positive and
exceeded. Returns (rvol_raw, rvol, cap_applied). -/
def rvol_ratio_fields (baseline_val : Option ℚ) (cumvol_today : Option ℤ)
    (cap : Option ℚ) : Option ℚ × Option ℚ × Bool :=
  match baseline_val, cumvol_today with
  | some b, some cv =>
    if b ≠ 0 ∧ 0 < b then
      let raw := (cv : ℚ) / b
      match cap with
      | some c => if 0 < c ∧ c < raw then (some raw, some c, true)
                  else (some raw, some raw, false)
      | none => (some raw, some raw, false)
    else (none, none, false)
  | _, _ => (none, none, false)

/-- Embeds rvol.py compute_rvol_time_of_day. Outside the session window it
returns the session-mismatch result (note that branch compares
history_days_used against min_history_days without the max(1, _) floor);
inside the window it reads the cumulative volume and baseline value at the
minute index and fills the ratio fields. -/
def compute_rvol_time_of_day (symbol : String) (bars_ny : List (NYTime × ℤ))
    (baseline_curve : Option BaselineCurve) (now_ny : NYTime)
    (session bar_size : String) (min_history_days : ℕ) (min_baseline : ℤ)
    (cap : Option ℚ) : RvolTimeOfDayResult :=
  match minute_index_in_session now_ny session with
  | none =>
    { symbol := symbol
      minute_index := none
      cumvol_today := none
      baseline_cumvol := none
      rvol_raw := none
      rvol := none
      history_days_used :=
        match baseline_curve with
        | some c => c.history_days_used
        | none => 0
      baseline_low := false
      insufficient_history :=
        match baseline_curve with
        | none => true
        | some c => decide (c.history_days_used < min_history_days)
      session_mismatch := true
      cap_applied := false }
  | some minute_idx =>
    let today_series := get_intraday_1m_volume bars_ny now_ny.day session bar_size
    let cumvol_today : Option ℤ :=
      match today_series with
      | some s =>
        if minute_idx < s.cumvol_1m.length then some (s.cumvol_1m.getD minute_idx 0)
        else none
      | none => none
    let history_days :=
      match baseline_curve with
      | some c => c.history_days_used
      | none => 0
    let baseline_val : Option ℚ :=
      match baseline_curve with
      | some c =>
        if minute_idx < c.baseline_cumvol.length then
          some (c.baseline_cumvol.getD minute_idx 0)
        else none
      | none => none
    let rrf := rvol_ratio_fields baseline_val cumvol_today cap
    { symbol := symbol
      minute_index := some minute_idx
      cumvol_today := cumvol_today
      baseline_cumvol := baseline_val
      rvol_raw := rrf.1
      rvol := rrf.2.1
      history_days_used := history_days
      baseline_low :=
        match baseline_val with
        | some b => decide (b ≤ (min_baseline : ℚ))
        | none => false
      insufficient_history := decide (history_days < max 1 min_history_days)
      session_mismatch := false
      cap_applied := rrf.2.2 }

/-- Characterization of the ratio block: cap_applied holds exactly when a
raw ratio exists and a positive cap lies strictly below it; the capped
value is then the cap, otherwise it is the raw ratio. -/
theorem rvol_ratio_fields_spec (bv : Option ℚ) (cv : Option ℤ) (cap : Option ℚ) :
    ((rvol_ratio_fields bv cv cap).2.2 = true ↔
      ∃ raw c, (rvol_ratio_fields bv cv cap).1 = some raw ∧ cap = some c ∧
        0 < c ∧ c < raw) ∧
    ((rvol_ratio_fields bv cv cap).2.2 = true →
      (rvol_ratio_fields bv cv cap).2.1 = cap) ∧
    ((rvol_ratio_fields bv cv cap).2.2 = false →
      (rvol_ratio_fields bv cv cap).2.1 = (rvol_ratio_fields bv cv cap).1) := by
  rcases bv with - | b
  · simp [rvol_ratio_fields]
  rcases cv with - | v
  · simp [rvol_ratio_fields]
  by_cases hb : b ≠ 0 ∧ 0 < b
  · rcases cap with - | c
    · simp [rvol_ratio_fields, hb]
    · by_cases hc : 0 < c ∧ c < (v : ℚ) / b
      · simp [rvol_ratio_fields, hb, hc]
      · simp only [rvol_ratio_fields, if_pos hb, if_neg hc]
        constructor
        · simp only [Bool.false_eq_true, false_iff]
          rintro ⟨raw, c', hraw, hc', h1, h2⟩
          obtain rfl : raw = (v : ℚ) / b := by
            simpa using hraw.symm
          obtain rfl : c' = c := by
            simpa using hc'.symm
          exact hc ⟨h1, h2⟩
        · simp
  · simp [rvol_ratio_fields, hb]

/-- Null-when-no-baseline for the ratio block. -/
theorem rvol_ratio_fields_null (bv : Option ℚ) (cv : Option ℤ) (cap : Option ℚ)
    (h : bv = none ∨ ∃ b, bv = some b ∧ b ≤ 0) :
    (rvol_ratio_fields bv cv cap).1 = none ∧
      (rvol_ratio_fields bv cv cap).2.1 = none := by
  rcases h with rfl | ⟨b, rfl, hb⟩
  · rcases cv with - | v <;> simp [rvol_ratio_fields]
  · rcases cv with - | v
    · simp [rvol_ratio_fields]
    · have hcond : ¬(b ≠ 0 ∧ 0 < b) := by
        rintro ⟨-, hpos⟩
        exact absurd hpos (not_lt.mpr hb)
      simp [rvol_ratio_fields, hcond]

/-! ### C3 theorems -/

theorem insufficient_history_counterexample :
    (compute_rvol_time_of_day "X" [] (some ⟨"X", "RTH", "1m", 1, "mean", 0, ⟨0, 0⟩,
        [], 0, none⟩) ⟨0, 300⟩ "RTH" "1m" 0 0 none).insufficient_history = false ∧
      (compute_rvol_time_of_day "X" [] (some ⟨"X", "RTH", "1m", 1, "mean", 0, ⟨0, 0⟩,
        [], 0, none⟩) ⟨0, 300⟩ "RTH" "1m" 0 0 none).history_days_used <
        max 1 0 := by
  decide

/-- Claim C3 (amended): whenever min_history_days is at least 1, the
returned insufficient_history flag equals
history_days_used < max 1 min_history_days, in the session-mismatch branch,
the missing-curve case and the normal path alike. For min_history_days = 0
the session-mismatch branch omits the max(1, _) floor and the equality can
fail. -/
theorem insufficient_history_flag (symbol : String) (bars_ny : List (NYTime × ℤ))
    (baseline_curve : Option BaselineCurve) (now_ny : NYTime)
    (session bar_size : String) (min_history_days : ℕ) (min_baseline : ℤ)
    (cap : Option ℚ) (hmh : 1 ≤ min_history_days) :
    ((compute_rvol_time_of_day symbol bars_ny baseline_curve now_ny session
        bar_size min_history_days min_baseline cap).insufficient_history = true ↔
      (compute_rvol_time_of_day symbol bars_ny baseline_curve now_ny session
        bar_size min_history_days min_baseline cap).history_days_used <
        max 1 min_history_days) := by
  cases hmi : minute_index_in_session now_ny session with
  | none =>
    cases baseline_curve with
    | none =>
      simp only [compute_rvol_time_of_day, hmi]
      simp
    | some c =>
      simp only [compute_rvol_time_of_day, hmi]
      simp [Nat.max_eq_right hmh]
  | some idx =>
    simp only [compute_rvol_time_of_day, hmi]
    simp

theorem insufficient_history_flag_witness :
    ((compute_rvol_time_of_day "X" [] none ⟨0, 600⟩ "RTH" "1m" 1 0
        none).insufficient_history = true ↔
      (compute_rvol_time_of_day "X" [] none ⟨0, 600⟩ "RTH" "1m" 1 0
        none).history_days_used < max 1 1) :=
  insufficient_history_flag "X" [] none ⟨0, 600⟩ "RTH" "1m" 1 0 none (by decide)

/-! ### C4 theorem -/

/-- Claim C4: when the baseline value read at the current minute index is
absent or nonpositive, the result carries null ratio fields (the total Lean
function witnesses that no division and no exception occurs). -/
theorem compute_rvol_null_on_bad_baseline (symbol : String)
    (bars_ny : List (NYTime × ℤ)) (baseline_curve : Option BaselineCurve)
    (now_ny : NYTime) (session bar_size : String) (min_history_days : ℕ)
    (min_baseline : ℤ) (cap : Option ℚ)
    (h : (compute_rvol_time_of_day symbol bars_ny baseline_curve now_ny session
        bar_size min_history_days min_baseline cap).baseline_cumvol = none ∨
      ∃ b, (compute_rvol_time_of_day symbol bars_ny baseline_curve now_ny session
        bar_size min_history_days min_baseline cap).baseline_cumvol = some b ∧
        b ≤ 0) :
    (compute_rvol_time_of_day symbol bars_ny baseline_curve now_ny session
        bar_size min_history_days min_baseline cap).rvol_raw = none ∧
      (compute_rvol_time_of_day symbol bars_ny baseline_curve now_ny session
        bar_size min_history_days min_baseline cap).rvol = none := by
  cases hmi : minute_index_in_session now_ny session with
  | none =>
    simp only [compute_rvol_time_of_day, hmi]
    simp
  | some idx =>
    simp only [compute_rvol_time_of_day, hmi] at h ⊢
    exact rvol_ratio_fields_null _ _ _ h

theorem compute_rvol_null_on_bad_baseline_witness :
    (compute_rvol_time_of_day "X" [] (some ⟨"X", "RTH", "1m", 1, "mean", 0, ⟨0, 0⟩,
        [0], 1, none⟩) ⟨0, 570⟩ "RTH" "1m" 1 0 none).rvol_raw = none ∧
      (compute_rvol_time_of_day "X" [] (some ⟨"X", "RTH", "1m", 1, "mean", 0, ⟨0, 0⟩,
        [0], 1, none⟩) ⟨0, 570⟩ "RTH" "1m" 1 0 none).rvol = none :=
  compute_rvol_null_on_bad_baseline "X" [] (some ⟨"X", "RTH", "1m", 1, "mean", 0,
    ⟨0, 0⟩, [0], 1, none⟩) ⟨0, 570⟩ "RTH" "1m" 1 0 none
    (Or.inr ⟨0, by decide, le_rfl⟩)

/-! ### C5 theorem -/

/-- Claim C5: cap_applied holds exactly when a ratio was computed and a
positive cap lies strictly below the raw ratio; in that case rvol is the
cap, in every other case rvol equals rvol_raw. -/
theorem cap_applied_iff (symbol : String) (bars_ny : List (NYTime × ℤ))
    (baseline_curve : Option BaselineCurve) (now_ny : NYTime)
    (session bar_size : String) (min_history_days : ℕ) (min_baseline : ℤ)
    (cap : Option ℚ) :
    ((compute_rvol_time_of_day symbol bars_ny baseline_curve now_ny session
        bar_size min_history_days min_baseline cap).cap_applied = true ↔
      ∃ raw c, (compute_rvol_time_of_day symbol bars_ny baseline_curve now_ny
          session bar_size min_history_days min_baseline cap).rvol_raw =
          some raw ∧ cap = some c ∧ 0 < c ∧ c < raw) ∧
    ((compute_rvol_time_of_day symbol bars_ny baseline_curve now_ny session
        bar_size min_history_days min_baseline cap).cap_applied = true →
      (compute_rvol_time_of_day symbol bars_ny baseline_curve now_ny session
        bar_size min_history_days min_baseline cap).rvol = cap) ∧
    ((compute_rvol_time_of_day symbol bars_ny baseline_curve now_ny session
        bar_size min_history_days min_baseline cap).cap_applied = false →
      (compute_rvol_time_of_day symbol bars_ny baseline_curve now_ny session
        bar_size min_history_days min_baseline cap).rvol =
        (compute_rvol_time_of_day symbol bars_ny baseline_curve now_ny session
          bar_size min_history_days min_baseline cap).rvol_raw) := by
  cases hmi : minute_index_in_session now_ny session with
  | none =>
    simp only [compute_rvol_time_of_day, hmi]
    simp
  | some idx =>
    simp only [compute_rvol_time_of_day, hmi]
    exact rvol_ratio_fields_spec _ _ _

theorem cap_applied_iff_witness :
    (compute_rvol_time_of_day "X" [(⟨0, 570⟩, 10)] (some ⟨"X", "RTH", "390m", 1,
        "mean", 0, ⟨0, 0⟩, [1], 1, none⟩) ⟨0, 570⟩ "RTH" "390m" 1 0
        (some 2)).rvol = some 2 := by
  refine (cap_applied_iff "X" [(⟨0, 570⟩, 10)] (some ⟨"X", "RTH", "390m", 1,
    "mean", 0, ⟨0, 0⟩, [1], 1, none⟩) ⟨0, 570⟩ "RTH" "390m" 1 0 (some 2)).2.1 ?_
  have h1 : minute_index_in_session ⟨0, 570⟩ "RTH" = some 0 := by decide
  have h2 : get_intraday_1m_volume [(⟨0, 570⟩, 10)] 0 "RTH" "390m" =
      some ⟨0, [10], [10], 0⟩ := by decide
  simp only [compute_rvol_time_of_day, h1, h2]
  norm_num [rvol_ratio_fields]

/-! ### Baseline curve cache, from src/watchlist/rvol.py over src/watchlist/db.py

The baseline_curves table is observed only through exact-key lookup and
INSERT OR REPLACE; it is modelled as an association list from the identity
key (symbol, session, bar_size, lookback_days, method, trim_pct) to the
stored curve. SQLite compares the TEXT key columns byte-for-byte (default
BINARY collation), which the exact equality here mirrors. -/

abbrev CurveKey := String × String × String × ℕ × String × ℚ

def curve_key_of (c : BaselineCurve) : CurveKey :=
  (c.symbol, c.session, c.bar_size, c.lookback_days, c.method, c.trim_pct)

abbrev CurveStore := List (CurveKey × BaselineCurve)

/-- Embeds rvol.py load_baseline_curve over db.py load_baseline_curve:
exact-key lookup of the stored curve. -/
def load_baseline_curve (store : CurveStore) (k : CurveKey) : Option BaselineCurve :=
  (store.find? (fun kv => kv.1 = k)).map (fun kv => kv.2)

/-- Embeds rvol.py upsert_baseline_curve over db.py upsert_baseline_curve:
INSERT OR REPLACE keyed by the identity of the stored curve. -/
def upsert_baseline_curve (store : CurveStore) (c : BaselineCurve) : CurveStore :=
  if store.any (fun kv => kv.1 = curve_key_of c) then
    store.map (fun kv => if kv.1 = curve_key_of c then (curve_key_of c, c) else kv)
  else (curve_key_of c, c) :: store

/-- Embeds rvol.py _baseline_curve_stale: stale when the update instant
falls on a different New-York-local day than now. -/
def baseline_curve_stale (c : BaselineCurve) (now_ny : NYTime) : Bool :=
  c.updated_at.day ≠ now_ny.day

/-- Embeds rvol.py get_or_build_baseline_curve: return the cached curve when
present and fresh, otherwise build and persist. Returns the curve together
with the updated store. The lookup key carries the session and method
arguments as passed, while the built curve is stored under its normalized
identity. The build instant recorded in updated_at is modelled as now_ny
(the source takes datetime.now during the build that this call performs). -/
def get_or_build_baseline_curve (store : CurveStore) (symbol : String)
    (bars_ny : List (NYTime × ℤ)) (prior_days : List ℤ) (now_ny : NYTime)
    (session bar_size : String) (lookback_days : ℕ) (method : String)
    (trim_pct : ℚ) (min_history_days : ℕ) (min_baseline : ℤ) :
    BaselineCurve × CurveStore :=
  let cached := load_baseline_curve store
    (symbol, session, bar_size, lookback_days, method, trim_pct)
  match cached with
  | some c =>
    if ¬ baseline_curve_stale c now_ny then (c, store)
    else
      let curve := build_baseline_curve_from_bars symbol bars_ny prior_days
        now_ny session bar_size lookback_days method trim_pct min_history_days
        min_baseline
      (curve, upsert_baseline_curve store curve)
  | none =>
    let curve := build_baseline_curve_from_bars symbol bars_ny prior_days
      now_ny session bar_size lookback_days method trim_pct min_history_days
      min_baseline
    (curve, upsert_baseline_curve store curve)

theorem find_map_replace (l : CurveStore) (k : CurveKey) (c : BaselineCurve)
    (h : l.any (fun kv => kv.1 = k) = true) :
    (l.map (fun kv => if kv.1 = k then (k, c) else kv)).find?
      (fun kv => kv.1 = k) = some (k, c) := by
  induction l with
  | nil => simp at h
  | cons kv rest ih =>
    by_cases hk : kv.1 = k
    · simp [List.find?_cons, hk]
    · have h' : rest.any (fun kv => kv.1 = k) = true := by
        simpa [List.any_cons, hk] using h
      simp [List.find?_cons, hk, ih h']

/-- An upsert is observed by a lookup at the same key. -/
theorem load_upsert_self (store : CurveStore) (c : BaselineCurve) :
    load_baseline_curve (upsert_baseline_curve store c) (curve_key_of c) =
      some c := by
  unfold load_baseline_curve upsert_baseline_curve
  by_cases h : store.any (fun kv => kv.1 = curve_key_of c) = true
  · rw [if_pos h, find_map_replace store (curve_key_of c) c h]
    rfl
  · rw [if_neg h]
    simp [List.find?_cons]

/-- Claim C2 (amended): a cached curve whose updated_at local day equals
the current local day is returned unchanged with the store untouched; a
missing or stale entry leads to a rebuild that is persisted; and when the
session and method arguments are in their canonical form (session upper
case, method lower case, as the pipeline settings guarantee), a second call
on the same local day with unchanged inputs returns exactly the curve of
the first call and leaves the store unchanged. For non-canonical session
or method strings the lookup key never matches the normalized stored key,
so every call rebuilds. -/
theorem get_or_build_baseline_curve_cache (store : CurveStore) (symbol : String)
    (bars_ny : List (NYTime × ℤ)) (prior_days : List ℤ) (now1 now2 : NYTime)
    (session bar_size : String) (lookback_days : ℕ) (method : String)
    (trim_pct : ℚ) (min_history_days : ℕ) (min_baseline : ℤ) :
    (∀ c, load_baseline_curve store (symbol, session, bar_size, lookback_days,
        method, trim_pct) = some c → baseline_curve_stale c now1 = false →
      get_or_build_baseline_curve store symbol bars_ny prior_days now1 session
        bar_size lookback_days method trim_pct min_history_days min_baseline =
        (c, store)) ∧
    ((∀ c, load_baseline_curve store (symbol, session, bar_size, lookback_days,
        method, trim_pct) = some c → baseline_curve_stale c now1 = true) →
      get_or_build_baseline_curve store symbol bars_ny prior_days now1 session
        bar_size lookback_days method trim_pct min_history_days min_baseline =
        (build_baseline_curve_from_bars symbol bars_ny prior_days now1 session
          bar_size lookback_days method trim_pct min_history_days min_baseline,
         upsert_baseline_curve store (build_baseline_curve_from_bars symbol
          bars_ny prior_days now1 session bar_size lookback_days method
          trim_pct min_history_days min_baseline))) ∧
    (session_clean session = session → method_clean_name method = method →
      now1.day = now2.day →
      get_or_build_baseline_curve
        (get_or_build_baseline_curve store symbol bars_ny prior_days now1
          session bar_size lookback_days method trim_pct min_history_days
          min_baseline).2
        symbol bars_ny prior_days now2 session bar_size lookback_days method
        trim_pct min_history_days min_baseline =
      ((get_or_build_baseline_curve store symbol bars_ny prior_days now1
          session bar_size lookback_days method trim_pct min_history_days
          min_baseline).1,
       (get_or_build_baseline_curve store symbol bars_ny prior_days now1
          session bar_size lookback_days method trim_pct min_history_days
          min_baseline).2)) := by
  refine ⟨?_, ?_, ?_⟩
  · intro c hload hfresh
    simp only [get_or_build_baseline_curve, hload, hfresh]
    simp
  · intro hstale
    rcases hload : load_baseline_curve store (symbol, session, bar_size,
      lookback_days, method, trim_pct) with - | c
    · simp only [get_or_build_baseline_curve, hload]
    · simp only [get_or_build_baseline_curve, hload, hstale c hload]
      simp
  · intro hsession hmethod hday
    have hkey : curve_key_of (build_baseline_curve_from_bars symbol bars_ny
        prior_days now1 session bar_size lookback_days method trim_pct
        min_history_days min_baseline) =
        (symbol, session, bar_size, lookback_days, method, trim_pct) := by
      have hk0 : curve_key_of (build_baseline_curve_from_bars symbol bars_ny
          prior_days now1 session bar_size lookback_days method trim_pct
          min_history_days min_baseline) =
          (symbol, session_clean session, bar_size, lookback_days,
            method_clean_name method, trim_pct) := rfl
      rw [hk0, hsession, hmethod]
    have hupd : (build_baseline_curve_from_bars symbol bars_ny prior_days now1
        session bar_size lookback_days method trim_pct min_history_days
        min_baseline).updated_at = now1 := rfl
    have hload2 : load_baseline_curve (upsert_baseline_curve store
        (build_baseline_curve_from_bars symbol bars_ny prior_days now1 session
          bar_size lookback_days method trim_pct min_history_days min_baseline))
        (symbol, session, bar_size, lookback_days, method, trim_pct) =
        some (build_baseline_curve_from_bars symbol bars_ny prior_days now1
          session bar_size lookback_days method trim_pct min_history_days
          min_baseline) := by
      rw [← hkey]
      exact load_upsert_self store _
    have hstale2 : baseline_curve_stale (build_baseline_curve_from_bars symbol
        bars_ny prior_days now1 session bar_size lookback_days method trim_pct
        min_history_days min_baseline) now2 = false := by
      simp [baseline_curve_stale, hupd, hday]
    rcases hload : load_baseline_curve store (symbol, session, bar_size,
      lookback_days, method, trim_pct) with - | c
    · have h1 : get_or_build_baseline_curve store symbol bars_ny prior_days now1
          session bar_size lookback_days method trim_pct min_history_days
          min_baseline =
          (build_baseline_curve_from_bars symbol bars_ny prior_days now1 session
            bar_size lookback_days method trim_pct min_history_days min_baseline,
           upsert_baseline_curve store (build_baseline_curve_from_bars symbol
            bars_ny prior_days now1 session bar_size lookback_days method
            trim_pct min_history_days min_baseline)) := by
        simp only [get_or_build_baseline_curve, hload]
      rw [h1]
      simp only [get_or_build_baseline_curve]
      rw [hload2]
      simp [hstale2]
    · by_cases hstale : baseline_curve_stale c now1 = true
      · have h1 : get_or_build_baseline_curve store symbol bars_ny prior_days
            now1 session bar_size lookback_days method trim_pct min_history_days
            min_baseline =
            (build_baseline_curve_from_bars symbol bars_ny prior_days now1
              session bar_size lookback_days method trim_pct min_history_days
              min_baseline,
             upsert_baseline_curve store (build_baseline_curve_from_bars symbol
              bars_ny prior_days now1 session bar_size lookback_days method
              trim_pct min_history_days min_baseline)) := by
          simp only [get_or_build_baseline_curve, hload, hstale]
          simp
        rw [h1]
        simp only [get_or_build_baseline_curve]
        rw [hload2]
        simp [hstale2]
      · have hfresh : baseline_curve_stale c now1 = false :=
          Bool.eq_false_iff.mpr hstale
        have hfresh2 : baseline_curve_stale c now2 = false := by
          simp only [baseline_curve_stale, hday] at hfresh ⊢
          exact hfresh
        have h1 : get_or_build_baseline_curve store symbol bars_ny prior_days
            now1 session bar_size lookback_days method trim_pct min_history_days
            min_baseline = (c, store) := by
          simp only [get_or_build_baseline_curve, hload, hfresh]
          simp
        rw [h1]
        simp only [get_or_build_baseline_curve]
        rw [hload]
        simp [hfresh2]

theorem get_or_build_baseline_curve_cache_witness :
    get_or_build_baseline_curve
      (get_or_build_baseline_curve [] "X" [] [] ⟨0, 600⟩ "RTH" "390m" 1 "mean"
        0 1 0).2
      "X" [] [] ⟨0, 601⟩ "RTH" "390m" 1 "mean" 0 1 0 =
    ((get_or_build_baseline_curve [] "X" [] [] ⟨0, 600⟩ "RTH" "390m" 1 "mean"
        0 1 0).1,
     (get_or_build_baseline_curve [] "X" [] [] ⟨0, 600⟩ "RTH" "390m" 1 "mean"
        0 1 0).2) :=
  (get_or_build_baseline_curve_cache [] "X" [] [] ⟨0, 600⟩ ⟨0, 601⟩ "RTH"
    "390m" 1 "mean" 0 1 0).2.2 (by decide) (by decide) (by decide)

theorem get_or_build_rebuilds_on_noncanonical_key :
    ((get_or_build_baseline_curve
        (get_or_build_baseline_curve [] "X" [] [] ⟨0, 600⟩ "rth" "390m" 1 "mean"
          0 1 0).2
        "X" [] [] ⟨0, 601⟩ "rth" "390m" 1 "mean" 0 1 0).1.updated_at ≠
      (get_or_build_baseline_curve [] "X" [] [] ⟨0, 600⟩ "rth" "390m" 1 "mean"
        0 1 0).1.updated_at) ∧
      ((⟨0, 600⟩ : NYTime).day = (⟨0, 601⟩ : NYTime).day) := by
  decide

/-! ### Candidate metrics, from src/watchlist/scoring.py -/

structure Metrics where
  symbol : String
  last : Option ℚ := none
  prev_close : Option ℚ := none
  change_pct : Option ℚ := none
  volume_today : Option ℤ := none
  bid : Option ℚ := none
  ask : Option ℚ := none
  spread : Option ℚ := none
  spread_pct : Option ℚ := none
  float_shares : Option ℤ := none
  rvol : Option ℚ := none
  rvol_raw : Option ℚ := none
  rvol_score : Option ℚ := none
  rvol_days_valid : Option ℕ := none
  rvol_cap_applied : Option Bool := none
  has_catalyst : Bool := false
  suspect_corporate_action : Bool := false
  suspect_data : Bool := false
deriving DecidableEq, Repr

/-! ### Filter funnel, from src/watchlist/builder.py

The external collaborators entering build_watchlist are modelled as data:
the scanner result is the input list of contracts, the per-symbol quote
snapshot travels with its contract, the float cache plus provider is a
lookup function, and the per-symbol RVOL computation (which performs
historical-bar fetches) is an oracle from symbol to an optional outcome,
none standing for the per-symbol timeout that skips enrichment. -/

structure IbContractInfo where
  symbol : String
  primary_exchange : Option String := none
deriving DecidableEq, Repr

structure SnapshotMetrics where
  last : Option ℚ := none
  prev_close : Option ℚ := none
  vol_today : Option ℤ := none
  bid : Option ℚ := none
  ask : Option ℚ := none
deriving DecidableEq, Repr

structure Filters where
  price_min : ℚ
  price_max : ℚ
  volume_min : ℤ
  change_min_pct : ℚ
  float_max : ℤ
  rvol_min : ℚ
  spread_abs_max : ℚ
  spread_pct_max : ℚ
  max_rvol_symbols : ℕ
deriving DecidableEq, Repr

inductive DropReason where
  | invalid_last
  | price_out_of_range
  | missing_prev_close
  | change_below_min
  | missing_volume
  | volume_below_min
deriving DecidableEq, Repr

structure DropReasons where
  invalid_last : ℕ := 0
  price_out_of_range : ℕ := 0
  missing_prev_close : ℕ := 0
  change_below_min : ℕ := 0
  missing_volume : ℕ := 0
  volume_below_min : ℕ := 0
deriving DecidableEq, Repr

def DropReasons.total (d : DropReasons) : ℕ :=
  d.invalid_last + d.price_out_of_range + d.missing_prev_close +
    d.change_below_min + d.missing_volume + d.volume_below_min

def DropReasons.bump (d : DropReasons) : DropReason → DropReasons
  | .invalid_last => { d with invalid_last := d.invalid_last + 1 }
  | .price_out_of_range => { d with price_out_of_range := d.price_out_of_range + 1 }
  | .missing_prev_close => { d with missing_prev_close := d.missing_prev_close + 1 }
  | .change_below_min => { d with change_below_min := d.change_below_min + 1 }
  | .missing_volume => { d with missing_volume := d.missing_volume + 1 }
  | .volume_below_min => { d with volume_below_min := d.volume_below_min + 1 }

/-- Embeds the snapshot-and-basic-filters loop body of build_watchlist
(builder.py lines 85 to 126): each candidate either hits exactly one drop
reason or yields the initial Metrics for the prelim list. -/
def prelim_classify (f : Filters) (c : IbContractInfo) (s : SnapshotMetrics) :
    DropReason ⊕ Metrics :=
  match s.last with
  | none => Sum.inl .invalid_last
  | some last =>
    if last ≤ 0 then Sum.inl .invalid_last
    else if ¬ (f.price_min ≤ last ∧ last ≤ f.price_max) then
      Sum.inl .price_out_of_range
    else
      match s.prev_close with
      | none => Sum.inl .missing_prev_close
      | some prev_close =>
        if prev_close ≤ 0 then Sum.inl .missing_prev_close
        else
          let change_pct := (last - prev_close) / prev_close * 100
          if change_pct < f.change_min_pct then Sum.inl .change_below_min
          else
            match s.vol_today with
            | none => Sum.inl .missing_volume
            | some vol_today =>
              if vol_today < f.volume_min then Sum.inl .volume_below_min
              else
                let spread : Option ℚ :=
                  match s.bid, s.ask with
                  | some b, some a => if 0 < b ∧ 0 < a then some (a - b) else none
                  | _, _ => none
                let spread_pct : Option ℚ :=
                  match spread with
                  | some sp => if 0 < last then some (sp / last) else none
                  | none => none
                Sum.inr { symbol := c.symbol
                          last := some last
                          prev_close := some prev_close
                          change_pct := some change_pct
                          volume_today := some vol_today
                          bid := s.bid
                          ask := s.ask
                          spread := spread
                          spread_pct := spread_pct }

def prelim_step (f : Filters)
    (acc : List (IbContractInfo × Metrics) × DropReasons)
    (cs : IbContractInfo × SnapshotMetrics) :
    List (IbContractInfo × Metrics) × DropReasons :=
  match prelim_classify f cs.1 cs.2 with
  | Sum.inl r => (acc.1, acc.2.bump r)
  | Sum.inr m => (acc.1 ++ [(cs.1, m)], acc.2)

/-- Embeds the prelim loop of build_watchlist: the surviving candidates in
order plus the per-reason drop counters (the separate invalid_last_count
variable of the source always equals the invalid_last counter). -/
def prelim_stage (f : Filters) (scan : List (IbContractInfo × SnapshotMetrics)) :
    List (IbContractInfo × Metrics) × DropReasons :=
  scan.foldl (prelim_step f) ([], {})

/-- Embeds the float-filter loop of build_watchlist (builder.py lines 140
to 146): record the looked-up float on the metrics, drop only when a known
float exceeds float_max. -/
def float_stage (prelim : List (IbContractInfo × Metrics))
    (float_map : String → Option ℤ) (float_max : ℤ) :
    List (IbContractInfo × Metrics) :=
  prelim.foldl (fun acc cm =>
    let fs := float_map cm.2.symbol
    let m := { cm.2 with float_shares := fs }
    match fs with
    | some v => if float_max < v then acc else acc ++ [(cm.1, m)]
    | none => acc ++ [(cm.1, m)]) []

/-- The in-place sort by change percent descending before the RVOL stage.
The source uses the Python stable sort; only the resulting order and the
preserved length matter here, modelled with insertion sort. -/
def sort_by_change_desc (l : List (IbContractInfo × Metrics)) :
    List (IbContractInfo × Metrics) :=
  List.insertionSort (fun a b => b.2.change_pct.getD 0 ≤ a.2.change_pct.getD 0) l

structure RvolOutcome where
  rvol : Option ℚ := none
  rvol_raw : Option ℚ := none
  rvol_score : Option ℚ := none
  rvol_days_valid : Option ℕ := none
  rvol_cap_applied : Option Bool := none
deriving DecidableEq, Repr

def apply_rvol_outcome (m : Metrics) (o : RvolOutcome) : Metrics :=
  { m with rvol := o.rvol
           rvol_raw := o.rvol_raw
           rvol_score := o.rvol_score
           rvol_days_valid := o.rvol_days_valid
           rvol_cap_applied := o.rvol_cap_applied }

/-- Embeds the RVOL enrichment loop: only the first max_rvol_symbols sorted
candidates are enriched; a none outcome is the per-symbol timeout, which
leaves the metrics untouched (continue in the source). -/
def rvol_stage (l : List (IbContractInfo × Metrics)) (max_rvol_symbols : ℕ)
    (rvol_oracle : String → Option RvolOutcome) :
    List (IbContractInfo × Metrics) :=
  (l.take max_rvol_symbols).map (fun cm =>
    match rvol_oracle cm.2.symbol with
    | some o => (cm.1, apply_rvol_outcome cm.2 o)
    | none => cm) ++ l.drop max_rvol_symbols

/-- Embeds the final RVOL/spread filter conditions of build_watchlist
(builder.py lines 285 to 301). -/
def final_keep (f : Filters) (rvol_permissive_if_not_live : Bool)
    (ib_market_data_type : ℤ) (m : Metrics) : Bool :=
  let rvol_for_filter :=
    match m.rvol_raw with
    | some r => some r
    | none => m.rvol
  let rvol_required := ! (rvol_permissive_if_not_live && (ib_market_data_type != 1))
  (match rvol_for_filter with
   | none => ! rvol_required
   | some rv => decide (f.rvol_min ≤ rv)) &&
  (if 0 < f.spread_abs_max then
     match m.spread with
     | some sp => decide (sp ≤ f.spread_abs_max)
     | none => false
   else true) &&
  (if 0 < f.spread_pct_max then
     match m.spread_pct with
     | some sp => decide (sp ≤ f.spread_pct_max)
     | none => false
   else true)

def final_stage (l : List (IbContractInfo × Metrics)) (f : Filters)
    (rvol_permissive_if_not_live : Bool) (ib_market_data_type : ℤ) :
    List (IbContractInfo × Metrics) :=
  l.filter (fun cm => final_keep f rvol_permissive_if_not_live
    ib_market_data_type cm.2)

structure FunnelCounts where
  scan_count : ℕ
  prelim_count : ℕ
  filtered_count : ℕ
  final_count : ℕ
  drop_reasons : DropReasons
deriving DecidableEq, Repr

/-- The funnel of build_watchlist with its stage counts, as echoed in the
scan block of the output payload (scan_count is the candidate count after
the scanner-side OTC exclusion, the list the snapshot loop iterates). -/
def build_watchlist_funnel (f : Filters)
    (scan : List (IbContractInfo × SnapshotMetrics))
    (float_map : String → Option ℤ) (rvol_oracle : String → Option RvolOutcome)
    (rvol_permissive_if_not_live : Bool) (ib_market_data_type : ℤ) :
    FunnelCounts :=
  let pr := prelim_stage f scan
  let filtered := float_stage pr.1 float_map f.float_max
  let enriched := rvol_stage (sort_by_change_desc filtered) f.max_rvol_symbols
    rvol_oracle
  let final := final_stage enriched f rvol_permissive_if_not_live
    ib_market_data_type
  { scan_count := scan.length
    prelim_count := pr.1.length
    filtered_count := filtered.length
    final_count := final.length
    drop_reasons := pr.2 }

/-- Each scanned candidate lands either in the prelim list or in exactly
one drop counter. -/
theorem prelim_foldl_count (f : Filters)
    (scan : List (IbContractInfo × SnapshotMetrics)) :
    ∀ acc : List (IbContractInfo × Metrics) × DropReasons,
      (scan.foldl (prelim_step f) acc).1.length +
        (scan.foldl (prelim_step f) acc).2.total =
      acc.1.length + acc.2.total + scan.length := by
  induction scan with
  | nil =>
    intro acc
    simp
  | cons cs rest ih =>
    intro acc
    rw [List.foldl_cons, ih]
    rcases hcl : prelim_classify f cs.1 cs.2 with r | m
    · rcases r <;>
        simp [prelim_step, hcl, DropReasons.bump, DropReasons.total] <;> omega
    · simp [prelim_step, hcl]
      omega

/-- The float stage is the filter, over the metrics with their looked-up
float recorded, that keeps unknown floats and floats within the maximum. -/
theorem float_stage_eq (prelim : List (IbContractInfo × Metrics))
    (float_map : String → Option ℤ) (float_max : ℤ) :
    float_stage prelim float_map float_max =
      (prelim.map (fun cm =>
          (cm.1, { cm.2 with float_shares := float_map cm.2.symbol }))).filter
        (fun cm =>
          match cm.2.float_shares with
          | some v => decide (v ≤ float_max)
          | none => true) := by
  suffices h : ∀ (l : List (IbContractInfo × Metrics))
      (acc : List (IbContractInfo × Metrics)),
      l.foldl (fun acc cm =>
        let fs := float_map cm.2.symbol
        let m := { cm.2 with float_shares := fs }
        match fs with
        | some v => if float_max < v then acc else acc ++ [(cm.1, m)]
        | none => acc ++ [(cm.1, m)]) acc =
      acc ++ (l.map (fun cm =>
          (cm.1, { cm.2 with float_shares := float_map cm.2.symbol }))).filter
        (fun cm =>
          match cm.2.float_shares with
          | some v => decide (v ≤ float_max)
          | none => true) by
    simpa [float_stage] using h prelim []
  intro l
  induction l with
  | nil =>
    intro acc
    simp
  | cons cm rest ih =>
    intro acc
    rw [List.foldl_cons]
    rcases hfs : float_map cm.2.symbol with - | v
    · simp only [hfs]
      rw [ih]
      simp [List.filter_cons, hfs]
    · by_cases hv : float_max < v
      · simp only [hfs, if_pos hv]
        rw [ih]
        simp [List.filter_cons, hfs, not_le.mpr hv]
      · simp only [hfs, if_neg hv]
        rw [ih]
        simp [List.filter_cons, hfs, not_lt.mp hv]

theorem rvol_stage_length (l : List (IbContractInfo × Metrics)) (k : ℕ)
    (rvol_oracle : String → Option RvolOutcome) :
    (rvol_stage l k rvol_oracle).length = l.length := by
  simp only [rvol_stage, List.length_append, List.length_map, List.length_take,
    List.length_drop]
  omega

/-! ### C7 theorem -/

/-- Claim C7: the funnel stage counts are monotonically decreasing,
final ≤ filtered ≤ prelim ≤ scan, and the six basic-filter drop counters
sum to exactly scan_count minus prelim_count. -/
theorem funnel_counts_invariant (f : Filters)
    (scan : List (IbContractInfo × SnapshotMetrics))
    (float_map : String → Option ℤ) (rvol_oracle : String → Option RvolOutcome)
    (rvol_permissive_if_not_live : Bool) (ib_market_data_type : ℤ) :
    (build_watchlist_funnel f scan float_map rvol_oracle
        rvol_permissive_if_not_live ib_market_data_type).final_count ≤
      (build_watchlist_funnel f scan float_map rvol_oracle
        rvol_permissive_if_not_live ib_market_data_type).filtered_count ∧
    (build_watchlist_funnel f scan float_map rvol_oracle
        rvol_permissive_if_not_live ib_market_data_type).filtered_count ≤
      (build_watchlist_funnel f scan float_map rvol_oracle
        rvol_permissive_if_not_live ib_market_data_type).prelim_count ∧
    (build_watchlist_funnel f scan float_map rvol_oracle
        rvol_permissive_if_not_live ib_market_data_type).prelim_count ≤
      (build_watchlist_funnel f scan float_map rvol_oracle
        rvol_permissive_if_not_live ib_market_data_type).scan_count ∧
    (build_watchlist_funnel f scan float_map rvol_oracle
        rvol_permissive_if_not_live ib_market_data_type).drop_reasons.total =
      (build_watchlist_funnel f scan float_map rvol_oracle
        rvol_permissive_if_not_live ib_market_data_type).scan_count -
      (build_watchlist_funnel f scan float_map rvol_oracle
        rvol_permissive_if_not_live ib_market_data_type).prelim_count := by
  have hpr := prelim_foldl_count f scan ([], {})
  have h0 : ({} : DropReasons).total = 0 := rfl
  simp only [List.length_nil, h0, Nat.add_zero, Nat.zero_add] at hpr
  simp only [build_watchlist_funnel, prelim_stage]
  have hfiltered : (float_stage (scan.foldl (prelim_step f) ([], {})).1 float_map
      f.float_max).length ≤ (scan.foldl (prelim_step f) ([], {})).1.length := by
    rw [float_stage_eq]
    refine le_trans (List.length_filter_le _ _) ?_
    rw [List.length_map]
  refine ⟨?_, hfiltered, ?_, ?_⟩
  · refine le_trans (List.length_filter_le _ _) ?_
    rw [rvol_stage_length]
    have := (List.perm_insertionSort
      (fun (a b : IbContractInfo × Metrics) =>
        b.2.change_pct.getD 0 ≤ a.2.change_pct.getD 0) (float_stage
        (scan.foldl (prelim_step f) ([], {})).1 float_map f.float_max)).length_eq
    simp only [sort_by_change_desc]
    omega
  · omega
  · omega

/-! ### C10 theorem -/

/-- Claim C10: in the float stage a candidate with unknown float is never
eliminated; the stage keeps exactly the candidates without a known float
above the maximum, recording the looked-up float (value or null) on each
survivor. -/
theorem float_filter_unknown_passes (prelim : List (IbContractInfo × Metrics))
    (float_map : String → Option ℤ) (float_max : ℤ) :
    (float_stage prelim float_map float_max =
      (prelim.map (fun cm =>
          (cm.1, { cm.2 with float_shares := float_map cm.2.symbol }))).filter
        (fun cm =>
          match cm.2.float_shares with
          | some v => decide (v ≤ float_max)
          | none => true)) ∧
    ∀ cm ∈ prelim, float_map cm.2.symbol = none →
      (cm.1, { cm.2 with float_shares := (none : Option ℤ) }) ∈
        float_stage prelim float_map float_max := by
  refine ⟨float_stage_eq prelim float_map float_max, ?_⟩
  intro cm hmem hnone
  rw [float_stage_eq]
  refine List.mem_filter.mpr ⟨?_, ?_⟩
  · refine List.mem_map.mpr ⟨cm, hmem, ?_⟩
    rw [hnone]
  · simp [hnone]

theorem float_filter_unknown_passes_witness :
    ((⟨"A", none⟩ : IbContractInfo),
        ({ symbol := "A", float_shares := (none : Option ℤ) } : Metrics)) ∈
      float_stage [(⟨"A", none⟩, { symbol := "A" })] (fun _ => none) 10 :=
  (float_filter_unknown_passes [(⟨"A", none⟩, { symbol := "A" })] (fun _ => none)
    10).2 (⟨"A", none⟩, { symbol := "A" }) (by simp) rfl

/-! ### Grading and sanity checks, from src/watchlist/scoring.py and
src/watchlist/sanity.py -/

/-- Python `x or d` on an optional float: None and 0 both give the
default. -/
def py_or_q (x : Option ℚ) (d : ℚ) : ℚ :=
  match x with
  | some v => if v = 0 then d else v
  | none => d

/-- Python `x or d` on an optional int: None and 0 both give the
default. -/
def py_or_z (x : Option ℤ) (d : ℤ) : ℤ :=
  match x with
  | some v => if v = 0 then d else v
  | none => d

/-- Embeds scoring.py _GRADE_ORDER lookup with default 9. -/
def grade_order (g : String) : ℕ :=
  if g = "A" then 0
  else if g = "B" then 1
  else if g = "C" then 2
  else if g = "D" then 3
  else 9

/-- Embeds scoring.py _cap_grade. -/
def cap_grade (grade max_grade : String) : String :=
  if grade_order grade < grade_order max_grade then max_grade else grade

/-- Embeds scoring.py grade_and_score: normalized weighted score with
catalyst bonus and suspicion penalties, and the threshold grade capped at
"C" when a suspicion flag is set. -/
def grade_and_score (m : Metrics) (float_max : ℤ)
    (spread_abs_max spread_pct_max : ℚ) : String × ℚ :=
  let change := py_or_q m.change_pct 0
  let rvol := py_or_q m.rvol 0
  let vol : ℚ := (py_or_z m.volume_today 0 : ℤ)
  let flt : ℚ := (py_or_z m.float_shares (float_max * 10) : ℤ)
  let spread : ℚ := py_or_q m.spread 999
  let s_change := min (max change 0) 50 / 50
  let s_rvol :=
    match m.rvol_score with
    | some rs => min (max rs 0) 1
    | none => min (max rvol 0) 10 / 10
  let s_vol := min (vol / 5000000) 1
  let s_float := min ((float_max : ℚ) / flt) 1
  let effective_spread_max0 : ℚ := spread_abs_max
  let effective_spread_max : ℚ :=
    match m.last with
    | some lastv =>
      if effective_spread_max0 ≤ 0 ∧ 0 < spread_pct_max ∧ lastv ≠ 0 then
        lastv * spread_pct_max
      else effective_spread_max0
    | none => effective_spread_max0
  let s_spread : ℚ :=
    if 0 < effective_spread_max then max 0 (1 - spread / effective_spread_max)
    else 0
  let score0 := (3 / 10) * s_change + (3 / 10) * s_rvol + (2 / 10) * s_vol +
    (15 / 100) * s_float + (5 / 100) * s_spread
  let score1 := if m.has_catalyst then score0 + 5 / 100 else score0
  let score2 := if m.suspect_corporate_action then score1 - 25 / 100 else score1
  let score3 := if m.suspect_data then score2 - 15 / 100 else score2
  let score := min (max score3 0) 1
  let spread_ok : Bool :=
    if effective_spread_max ≤ 0 then true
    else decide (spread ≤ effective_spread_max)
  let spread_ok_loose : Bool :=
    if effective_spread_max ≤ 0 then true
    else decide (spread ≤ effective_spread_max * (3 / 2))
  let grade :=
    if 15 ≤ change ∧ 5 ≤ rvol ∧ 1000000 ≤ py_or_z m.volume_today 0 ∧
        py_or_z m.float_shares 999999999 ≤ float_max ∧ spread_ok = true then "A"
    else if 10 ≤ change ∧ 3 ≤ rvol ∧ 500000 ≤ py_or_z m.volume_today 0 ∧
        spread_ok_loose = true then "B"
    else if 7 ≤ change ∧ 2 ≤ rvol then "C"
    else "D"
  let graded :=
    if m.suspect_corporate_action || m.suspect_data then cap_grade grade "C"
    else grade
  (graded, score)

/-- Embeds sanity.py _is_bad_number: None is bad; NaN and infinity have no
rational counterpart, so for this model the check reduces to the None
test. -/
def is_bad_number (x : Option ℚ) : Bool :=
  x = none

/-- Corporate-action check of run_sanity_checks: the source guards with
not-bad on prev_close and change_pct, which for rationals is exactly the
some/some match. -/
def sanity_corporate_flag (prev_close change_pct : Option ℚ)
    (prevclose_min change_pct_max : ℚ) : Bool :=
  match prev_close, change_pct with
  | some pc, some ch => decide (pc < prevclose_min) && decide (change_pct_max < ch)
  | _, _ => false

/-- Spread-percent check of run_sanity_checks. -/
def sanity_spread_flag (spread_pct : Option ℚ) (spread_pct_max : ℚ) : Bool :=
  match spread_pct with
  | some sp => decide (0 < spread_pct_max) && decide (spread_pct_max < sp)
  | none => false

/-- High-change-on-low-volume check of run_sanity_checks. -/
def sanity_high_change_flag (change_pct : Option ℚ) (volume_today : Option ℤ)
    (min_vol_for_high_change : ℤ) : Bool :=
  if 0 < min_vol_for_high_change then
    match change_pct, volume_today with
    | some ch, some vt => decide (80 < ch) && decide (vt < min_vol_for_high_change)
    | _, _ => false
  else false

/-- Embeds sanity.py run_sanity_checks; the returned pair is
(suspectCorporateAction, suspectData). The spread argument is accepted and
unused, as in the source. -/
def run_sanity_checks (last prev_close change_pct spread spread_pct : Option ℚ)
    (volume_today : Option ℤ) (prevclose_min change_pct_max spread_pct_max : ℚ)
    (min_vol_for_high_change : ℤ) : Bool × Bool :=
  let _unused := spread
  (sanity_corporate_flag prev_close change_pct prevclose_min change_pct_max,
   (is_bad_number last || is_bad_number prev_close) ||
     sanity_spread_flag spread_pct spread_pct_max ||
     sanity_high_change_flag change_pct volume_today min_vol_for_high_change)

/-! ### C8 theorem -/

theorem cap_grade_C_cases (g : String)
    (h : g = "A" ∨ g = "B" ∨ g = "C" ∨ g = "D") :
    cap_grade g "C" = "C" ∨ cap_grade g "C" = "D" := by
  rcases h with rfl | rfl | rfl | rfl <;> simp [cap_grade, grade_order]

theorem ite_grade_cases (p q r : Prop) [Decidable p] [Decidable q] [Decidable r] :
    (if p then "A" else if q then "B" else if r then "C" else "D") = "A" ∨
      (if p then "A" else if q then "B" else if r then "C" else "D") = "B" ∨
      (if p then "A" else if q then "B" else if r then "C" else "D") = "C" ∨
      (if p then "A" else if q then "B" else if r then "C" else "D") = "D" := by
  split_ifs <;> simp

/-- Claim C8: a suspicion flag caps the grade at no better than "C"
(the result is "C" or "D" whatever the numeric metrics), and a previous
close below the floor together with a change percent above the ceiling
makes run_sanity_checks raise the suspected-corporate-action flag. -/
theorem grade_capped_when_suspect (m : Metrics) (float_max : ℤ)
    (spread_abs_max spread_pct_max : ℚ) (last : Option ℚ) (pcv chv : ℚ)
    (spread spread_pct : Option ℚ) (volume_today : Option ℤ)
    (prevclose_min change_pct_max spread_pct_max2 : ℚ)
    (min_vol_for_high_change : ℤ)
    (hsus : m.suspect_corporate_action = true ∨ m.suspect_data = true)
    (hpc : pcv < prevclose_min) (hch : change_pct_max < chv) :
    ((grade_and_score m float_max spread_abs_max spread_pct_max).1 = "C" ∨
      (grade_and_score m float_max spread_abs_max spread_pct_max).1 = "D") ∧
    (run_sanity_checks last (some pcv) (some chv) spread spread_pct
        volume_today prevclose_min change_pct_max spread_pct_max2
        min_vol_for_high_change).1 = true := by
  constructor
  · have hcond : (m.suspect_corporate_action || m.suspect_data) = true := by
      rcases hsus with h | h <;> simp [h]
    simp only [grade_and_score, hcond, if_true]
    exact cap_grade_C_cases _ (ite_grade_cases _ _ _)
  · simp [run_sanity_checks, sanity_corporate_flag, hpc, hch]

/-- Scenario D of the spec: sub-floor previous close, change percent above
the ceiling, and every numeric threshold at grade-A level. -/
def scenario_d_metrics : Metrics :=
  { symbol := "D1"
    last := some 5
    prev_close := some (1 / 2)
    change_pct := some 180
    volume_today := some 2000000
    spread := some (1 / 100)
    float_shares := some 1000
    rvol := some 6
    suspect_corporate_action := true }

theorem grade_capped_when_suspect_witness :
    ((grade_and_score scenario_d_metrics 10000000 (1 / 2) (5 / 100)).1 = "C" ∨
      (grade_and_score scenario_d_metrics 10000000 (1 / 2) (5 / 100)).1 = "D") ∧
    (run_sanity_checks (some 5) (some (1 / 2)) (some 180) (some (1 / 100))
        (some (1 / 500)) (some 2000000) 1 150 (5 / 100) 50000).1 = true :=
  grade_capped_when_suspect scenario_d_metrics 10000000 (1 / 2) (5 / 100)
    (some 5) (1 / 2) 180 (some (1 / 100)) (some (1 / 500)) (some 2000000) 1 150
    (5 / 100) 50000 (Or.inl rfl) (by norm_num) (by norm_num)

/-! ### Closed-market fallback, from src/watchlist/cli.py

A prior output payload is abstracted to its symbol rows and ticker list
(the fields the fallback copies); its age in hours stands for now minus the
output-file modification time (for the last output file) and now minus
generated_utc (for the run-history payload from the database). A none last
file covers a missing file, unparsable JSON and a payload without a symbol
list, which the source all treats as no reusable output. -/

structure LastPayload where
  symbols : List String
  tv_symbols : List String
deriving DecidableEq, Repr

structure FallbackPayload where
  fallback_used : Bool
  fallback_reason : String
  symbols : List String
  tv_symbols : List String
  original : Option LastPayload
deriving DecidableEq, Repr

/-- Embeds cli.py _build_fallback_payload: always tagged fallback_used with
the given reason; symbol rows and tickers copied from the prior payload
when one is supplied, empty otherwise. -/
def build_fallback_payload (reason : String) (last_payload : Option LastPayload) :
    FallbackPayload :=
  { fallback_used := true
    fallback_reason := reason
    symbols :=
      match last_payload with
      | some p => p.symbols
      | none => []
    tv_symbols :=
      match last_payload with
      | some p => p.tv_symbols
      | none => []
    original := last_payload }

/-- The db-history arm of the last_ok mode (cli.py lines 246 to 266):
reuse the most recent run-history payload when within the staleness
window, else emit the explicit _stale empty payload. -/
def apply_last_ok_db (db_entry : Option (LastPayload × ℚ)) (reason : String)
    (stale_max_hours : ℚ) : FallbackPayload :=
  match db_entry with
  | some (p, age) =>
    if age ≤ stale_max_hours then build_fallback_payload reason (some p)
    else build_fallback_payload (reason ++ "_stale") none
  | none => build_fallback_payload (reason ++ "_stale") none

/-- Python `(fallback_mode or "last_ok").strip().lower()` with the unknown
modes collapsed to last_ok (cli.py lines 215 to 217). -/
def normalize_fallback_mode (fallback_mode : String) : String :=
  let mode0 := py_lower (py_strip (if fallback_mode = "" then "last_ok"
    else fallback_mode))
  if mode0 = "last_ok" ∨ mode0 = "empty" ∨ mode0 = "research" then mode0
  else "last_ok"

/-- Embeds cli.py _apply_closed_fallback: normalize the mode (unknown modes
fall back to last_ok); empty emits an empty tagged payload; last_ok reuses
the last output file when its age is within the staleness window, then the
run history within the window, and otherwise degrades to the _stale empty
payload; research reuses the latest available payload regardless of age and
degrades to _no_last. -/
def apply_closed_fallback (fallback_mode : String)
    (last_file : Option (LastPayload × ℚ)) (db_entry : Option (LastPayload × ℚ))
    (reason : String) (stale_max_hours : ℚ) : FallbackPayload :=
  let mode := normalize_fallback_mode fallback_mode
  if mode = "empty" then build_fallback_payload reason none
  else if mode = "last_ok" then
    match last_file with
    | some (p, age) =>
      if ¬ stale_max_hours < age then build_fallback_payload reason (some p)
      else apply_last_ok_db db_entry reason stale_max_hours
    | none => apply_last_ok_db db_entry reason stale_max_hours
  else if mode = "research" then
    match last_file with
    | some (p, _) => build_fallback_payload reason (some p)
    | none =>
      match db_entry with
      | some (p, _) => build_fallback_payload reason (some p)
      | none => build_fallback_payload (reason ++ "_no_last") none
  else build_fallback_payload (reason ++ "_no_last") none

theorem string_append_ne_empty (a b : String) (h : a ≠ "") : a ++ b ≠ "" := by
  intro hab
  apply h
  have hd := congrArg String.data hab
  rw [String.data_append] at hd
  rcases List.append_eq_nil.mp hd with ⟨ha, -⟩
  cases a
  simp_all

/-- Every fallback result is a build_fallback_payload application. -/
theorem apply_closed_fallback_shape (fallback_mode : String)
    (last_file db_entry : Option (LastPayload × ℚ)) (reason : String)
    (stale_max_hours : ℚ) :
    ∃ suffix lp, apply_closed_fallback fallback_mode last_file db_entry reason
        stale_max_hours = build_fallback_payload (reason ++ suffix) lp ∧
      (suffix = "" ∨ suffix = "_stale" ∨ suffix = "_no_last") := by
  have hdb : ∃ suffix lp, apply_last_ok_db db_entry reason stale_max_hours =
      build_fallback_payload (reason ++ suffix) lp ∧
      (suffix = "" ∨ suffix = "_stale" ∨ suffix = "_no_last") := by
    rcases db_entry with - | ⟨q, dage⟩
    · exact ⟨"_stale", none, rfl, Or.inr (Or.inl rfl)⟩
    · by_cases hd : dage ≤ stale_max_hours
      · exact ⟨"", some q, by simp [apply_last_ok_db, hd], Or.inl rfl⟩
      · exact ⟨"_stale", none, by simp [apply_last_ok_db, hd], Or.inr (Or.inl rfl)⟩
  simp only [apply_closed_fallback]
  by_cases h1 : normalize_fallback_mode fallback_mode = "empty"
  · rw [if_pos h1]
    exact ⟨"", none, by simp, Or.inl rfl⟩
  · rw [if_neg h1]
    by_cases h2 : normalize_fallback_mode fallback_mode = "last_ok"
    · rw [if_pos h2]
      rcases last_file with - | ⟨p, age⟩
      · exact hdb
      · by_cases hf : ¬ stale_max_hours < age
        · exact ⟨"", some p, by simp [hf], Or.inl rfl⟩
        · simpa [hf] using hdb
    · rw [if_neg h2]
      by_cases h3 : normalize_fallback_mode fallback_mode = "research"
      · rw [if_pos h3]
        rcases last_file with - | ⟨p, age⟩
        · rcases db_entry with - | ⟨q, dage⟩
          · exact ⟨"_no_last", none, rfl, Or.inr (Or.inr rfl)⟩
          · exact ⟨"", some q, by simp, Or.inl rfl⟩
        · exact ⟨"", some p, by simp, Or.inl rfl⟩
      · rw [if_neg h3]
        exact ⟨"_no_last", none, rfl, Or.inr (Or.inr rfl)⟩

/-! ### C9 theorem -/

/-- Claim C9: every fallback payload carries fallback_used with a non-empty
reason string (the suffixes only extend the caller reason), and in last_ok
mode a prior output is reused only within the staleness window: a fresh
last output file is reused, else a fresh run-history payload, and when
neither exists within the window the result is the empty payload whose
reason carries the _stale suffix. -/
theorem closed_fallback_policy (fallback_mode : String)
    (last_file db_entry : Option (LastPayload × ℚ)) (reason : String)
    (stale_max_hours : ℚ) (hreason : reason ≠ "") :
    ((apply_closed_fallback fallback_mode last_file db_entry reason
        stale_max_hours).fallback_used = true ∧
      (apply_closed_fallback fallback_mode last_file db_entry reason
        stale_max_hours).fallback_reason ≠ "") ∧
    (normalize_fallback_mode fallback_mode = "last_ok" →
      (∀ p age, last_file = some (p, age) → age ≤ stale_max_hours →
        apply_closed_fallback fallback_mode last_file db_entry reason
          stale_max_hours = build_fallback_payload reason (some p)) ∧
      ((∀ p age, last_file = some (p, age) → stale_max_hours < age) →
        (∀ p age, db_entry = some (p, age) → age ≤ stale_max_hours →
          apply_closed_fallback fallback_mode last_file db_entry reason
            stale_max_hours = build_fallback_payload reason (some p)) ∧
        ((∀ p age, db_entry = some (p, age) → stale_max_hours < age) →
          (apply_closed_fallback fallback_mode last_file db_entry reason
            stale_max_hours).symbols = [] ∧
          (apply_closed_fallback fallback_mode last_file db_entry reason
            stale_max_hours).fallback_reason = reason ++ "_stale"))) := by
  constructor
  · obtain ⟨suffix, lp, heq, -⟩ := apply_closed_fallback_shape fallback_mode
      last_file db_entry reason stale_max_hours
    rw [heq]
    exact ⟨rfl, string_append_ne_empty reason suffix hreason⟩
  · intro hmode
    constructor
    · intro p age hlf hage
      simp only [apply_closed_fallback, hmode, if_true]
      rw [hlf]
      simp [not_lt.mpr hage]
    · intro hstale_file
      constructor
      · intro p age hdb hage
        simp only [apply_closed_fallback, hmode, if_true]
        rcases hlf : last_file with - | ⟨q, fage⟩
        · simp [apply_last_ok_db, hdb, hage]
        · have hf := hstale_file q fage hlf
          simp [apply_last_ok_db, hdb, hage, hf]
      · intro hstale_db
        have hdbres : apply_last_ok_db db_entry reason stale_max_hours =
            build_fallback_payload (reason ++ "_stale") none := by
          rcases hdb : db_entry with - | ⟨q, dage⟩
          · rfl
          · have := hstale_db q dage hdb
            simp only [apply_last_ok_db]
            rw [if_neg (not_le.mpr this)]
        have hres : apply_closed_fallback fallback_mode last_file db_entry
            reason stale_max_hours =
            build_fallback_payload (reason ++ "_stale") none := by
          simp only [apply_closed_fallback, hmode, if_true]
          rcases hlf : last_file with - | ⟨q, fage⟩
          · exact hdbres
          · have hf := hstale_file q fage hlf
            simpa [hf] using hdbres
        rw [hres]
        exact ⟨rfl, rfl⟩

theorem closed_fallback_policy_witness :
    ((apply_closed_fallback "last_ok" none none "market_closed_no_candidates"
        36).fallback_used = true ∧
      (apply_closed_fallback "last_ok" none none "market_closed_no_candidates"
        36).fallback_reason ≠ "") ∧
    ((apply_closed_fallback "last_ok" none none "market_closed_no_candidates"
        36).symbols = [] ∧
      (apply_closed_fallback "last_ok" none none "market_closed_no_candidates"
        36).fallback_reason = "market_closed_no_candidates" ++ "_stale") :=
  ⟨(closed_fallback_policy "last_ok" none none "market_closed_no_candidates" 36
      (by decide)).1,
   (((closed_fallback_policy "last_ok" none none "market_closed_no_candidates"
      36 (by decide)).2 (by decide)).2
      (fun p age h => Option.noConfusion h)).2
      (fun p age h => Option.noConfusion h)⟩

end Watchlist
